import Mathlib

/-!
Verification of the mongo-tv watch-session core (`src/server.js`).

Shallow embedding of the watch-session manager of `server.js`:

* `broadcast` (server.js lines 77-84): fan-out of one message to every
  connected WebSocket client whose `readyState` is `OPEN` (= 1).
* `formatChangeEvent` (lines 91-119): pure normalization of a raw MongoDB
  change-stream event.
* `cleanForYaml` (lines 126-154): display normalization of BSON values,
  preserving object key order (the `for key in obj` loop copies keys in
  insertion order, and `toYaml` passes `sortKeys: false`).
* `startWatching` (lines 245-320): close the current change stream if any,
  pick the watch target from `(database, collection)` using JavaScript
  truthiness (empty string is falsy), record the watch description, open a
  new stream, broadcast a status event.  Dereferencing a null `mongoClient`
  throws; the throw point depends on the branch taken, so the embedding
  threads the mutated state through the throw.
* the change / error handlers installed on the stream (lines 287-319):
  `onStreamChange` and `onStreamError`.
* the WebSocket message handler (lines 376-396): `handleMessage`, whose
  `try`/`catch` swallows any exception from `startWatching` (it is only
  logged).

State is passed explicitly.  `SessionSt` models the module-level mutable
globals `mongoClient` (as the Boolean `mongoConnected`), `currentChangeStream`
(as `current`, an optional stream id) and `currentWatchDescription`
(`watchDesc`).  `openIds` tracks, at the resource level, every change stream
that has been opened and not yet closed, so that the "at most one open
subscription" invariant is a statement about the model rather than a
tautology; `nextId` supplies fresh stream ids.

`startWatching` is `async` and suspends at `await currentChangeStream.close()`
(line 248); the WebSocket message handlers that call it are independent async
functions with nothing serializing them, so two in-flight calls can
interleave at that await.  `taskStep` / `runInterleaved` model execution at
exactly the granularity the event loop enforces (synchronous up to the
await, synchronous from line 249 to the end), and
`runInterleaved_single_eq_core` proves that a call run to completion without
interleaving coincides with the sequential embedding `startWatchingCore`.
-/

/-- JavaScript/BSON values as they occur in change-stream documents.
Objects are association lists so that key order is observable. -/
inductive JsValue where
  | null : JsValue
  | boolean : Bool → JsValue
  | num : Int → JsValue
  | str : String → JsValue
  | date : Int → JsValue
  | buffer : List Nat → JsValue
  | binary : List Nat → JsValue
  | objectId : String → JsValue
  | arr : List JsValue → JsValue
  | obj : List (String × JsValue) → JsValue

/-- `cleanForYaml` (server.js lines 126-154): BSON `Binary` becomes its
underlying buffer, BSON `ObjectId` becomes its string form, arrays and plain
objects are cleaned recursively (the `for key in obj` loop preserves key
order), `Date` and `Buffer` values and primitives are returned unchanged. -/
def cleanForYaml : JsValue → JsValue
  | .binary bytes => .buffer bytes
  | .objectId hex => .str hex
  | .arr elems => .arr (elems.attach.map (fun e => cleanForYaml e.1))
  | .obj fields => .obj (fields.attach.map (fun f => (f.1.1, cleanForYaml f.1.2)))
  | v => v
decreasing_by
  · simp only [JsValue.arr.sizeOf_spec]
    have := List.sizeOf_lt_of_mem e.2
    omega
  · simp only [JsValue.obj.sizeOf_spec]
    have h1 := List.sizeOf_lt_of_mem f.2
    have h2 : sizeOf f.1.2 < sizeOf f.1 := by
      cases hf : f.1 with
      | mk a b => simp [hf]
    omega

/-- The top-level field names of a value, in order ([] for non-objects). -/
def fieldNames : JsValue → List String
  | .obj fields => fields.map (fun f => f.1)
  | _ => []

/-- The `ns` component of a raw change event (`ns.db` / `ns.coll`); either
component may be absent, and in JavaScript an empty string is falsy. -/
structure ChangeNs where
  db : Option String
  coll : Option String

/-- A raw MongoDB change-stream event, restricted to the fields
`formatChangeEvent` and the change handler read. -/
structure RawChange where
  operationType : String
  ns : Option ChangeNs
  documentKey : JsValue
  fullDocument : Option JsValue
  updateDescription : Option JsValue

/-- The `operationMap` literal of `formatChangeEvent` (lines 92-99). -/
def operationMap (tag : String) : Option String :=
  if tag = "insert" then some "INSERT"
  else if tag = "update" then some "UPDATE"
  else if tag = "replace" then some "REPLACE"
  else if tag = "delete" then some "DELETE"
  else if tag = "drop" then some "DROP"
  else if tag = "invalidate" then some "INVALIDATE"
  else none

/-- JavaScript `String.prototype.toUpperCase` on the ASCII operation tags:
uppercase every character. -/
def jsToUpperCase (s : String) : String := String.mk (s.data.map Char.toUpper)

/-- `x || 'unknown'` applied to an optional string: absent (`undefined`) and
the empty string are both falsy in JavaScript. -/
def orUnknown : Option String → String
  | none => "unknown"
  | some s => if s = "" then "unknown" else s

/-- The object built by `formatChangeEvent` (lines 101-118).  `nspace` is the
source's `namespace` field (a reserved word in Lean). -/
structure FormattedEvent where
  operation : String
  timestamp : String
  nspace : String
  documentKey : JsValue
  document : Option JsValue
  updates : Option JsValue

/-- `formatChangeEvent` (server.js lines 91-119).  `now` stands for
`new Date().toISOString()`. -/
def formatChangeEvent (now : String) (change : RawChange) : FormattedEvent :=
  { operation := (operationMap change.operationType).getD (jsToUpperCase change.operationType)
    timestamp := now
    nspace := orUnknown (change.ns.bind (fun n => n.db)) ++ "."
        ++ orUnknown (change.ns.bind (fun n => n.coll))
    documentKey := change.documentKey
    document := change.fullDocument
    updates := change.updateDescription }

/-- Payload selection in the change handler (lines 291-298): the full
document if present, else the update description, else the document key
wrapped in an object. -/
def choosePayload (formatted : FormattedEvent) : JsValue :=
  match formatted.document with
  | some d => d
  | none =>
    match formatted.updates with
    | some u => u
    | none => .obj [("documentKey", formatted.documentKey)]

/-- A connected WebSocket client: its identity and its `readyState`
(`WebSocket.OPEN` is 1). -/
structure Client where
  id : Nat
  readyState : Nat
deriving DecidableEq, Repr

/-- Messages the server sends to clients (the `type` discriminants of the
objects passed to `JSON.stringify`). -/
inductive Msg where
  | welcome : Msg
  | status : String → Msg
  | error : String → Msg
  | change : String → String → String → JsValue → Msg

/-- `broadcast` (server.js lines 77-84): send the message to every client in
the registry whose `readyState` is `OPEN`.  The result lists the deliveries
performed, as (client id, message) pairs. -/
def broadcast (clients : List Client) (m : Msg) : List (Nat × Msg) :=
  clients.filterMap (fun c => if c.readyState = 1 then some (c.id, m) else none)

/-- The mutable module-level state of server.js that the watch session
reads and writes.  `mongoConnected` is whether `mongoClient` is non-null,
`current` is `currentChangeStream` (by stream id), `watchDesc` is
`currentWatchDescription`.  `openIds` records every change stream opened and
not yet closed (resource-level bookkeeping, so that subscription overlap is
expressible); `nextId` supplies fresh stream ids. -/
structure SessionSt where
  mongoConnected : Bool
  current : Option Nat
  openIds : List Nat
  nextId : Nat
  watchDesc : String
deriving DecidableEq, Repr

/-- Lines 247-250 of `startWatching`: if a change stream is active, close it
and null the reference. -/
def closePhase (st : SessionSt) : SessionSt :=
  match st.current with
  | some i => { st with current := none, openIds := st.openIds.erase i }
  | none => st

/-- The watch description computed on lines 256-265, with JavaScript
truthiness: an absent/empty `database` or `collection` is falsy. -/
def watchDescOf (database collection : String) : String :=
  if database ≠ "" ∧ collection ≠ "" ∧ collection ≠ "*" then
    database ++ "." ++ collection
  else if database ≠ "" then database ++ ".*"
  else "*.*"

/-- Result of running `startWatching`: the final global state and, when a
JavaScript exception escaped (dereferencing a null `mongoClient`), its
message in `thrown`. -/
structure WatchOutcome where
  st : SessionSt
  thrown : Option String
deriving DecidableEq, Repr

/-- State transition of `startWatching` (server.js lines 245-277): close the
current stream; select the watch target — when `database` is truthy this
dereferences `mongoClient` (lines 257 and 260) and throws if it is null,
before `currentWatchDescription` is updated; otherwise the description is
set first and the null dereference happens at `watchTarget.watch(...)`
(line 277).  On success a fresh stream becomes current. -/
def startWatchingCore (st : SessionSt) (database collection : String) : WatchOutcome :=
  let st1 := closePhase st
  if database ≠ "" ∧ st.mongoConnected = false then
    { st := st1, thrown := some "TypeError: mongoClient is null" }
  else
    let st2 := { st1 with watchDesc := watchDescOf database collection }
    if st.mongoConnected = false then
      { st := st2, thrown := some "TypeError: watchTarget is null" }
    else
      { st := { st2 with
                  current := some st2.nextId
                  openIds := st2.nextId :: st2.openIds
                  nextId := st2.nextId + 1 }
        thrown := none }

/-- Full result of `startWatching`: final state, deliveries performed, and
the escaped exception if any. -/
structure WatchResult where
  st : SessionSt
  sends : List (Nat × Msg)
  thrown : Option String

/-- `startWatching` (lines 245-320) including the status broadcast of lines
280-284, which is reached exactly when no exception was thrown. -/
def startWatching (clients : List Client) (st : SessionSt) (database collection : String) :
    WatchResult :=
  let o := startWatchingCore st database collection
  { st := o.st
    sends := if o.thrown = none then broadcast clients (Msg.status o.st.watchDesc) else []
    thrown := o.thrown }


/-- The `change` handler (lines 287-311): format the raw event, choose the
payload, broadcast a `change` message carrying the display-normalized
payload. -/
def onStreamChange (clients : List Client) (now : String) (change : RawChange) :
    List (Nat × Msg) :=
  let formatted := formatChangeEvent now change
  let payload := choosePayload formatted
  broadcast clients
    (Msg.change formatted.operation formatted.nspace formatted.timestamp
      (cleanForYaml payload))

/-- The `error` handler on the change stream (lines 313-319): log and
broadcast an `error` message.  It does not close the stream and does not
call `startWatching` or `connectMongoDB`, so the state is unchanged. -/
def onStreamError (clients : List Client) (st : SessionSt) (errMessage : String) :
    SessionSt × List (Nat × Msg) :=
  (st, broadcast clients (Msg.error errMessage))

/-- `n` consecutive firings of the stream `error` handler, accumulating the
deliveries of each. -/
def streamErrors : Nat → List Client → SessionSt → String → SessionSt × List (Nat × Msg)
  | 0, _, st, _ => (st, [])
  | n + 1, clients, st, e =>
    let r1 := onStreamError clients st e
    let r2 := streamErrors n clients r1.1 e
    (r2.1, r1.2 ++ r2.2)

/-- Startup configuration relevant to the lock: the `MONGODB_DATABASE` and
`MONGODB_COLLECTION` environment variables ("" when unset). -/
structure Config where
  mongodbDatabase : String
  mongodbCollection : String

/-- A parsed client message.  `selectCollection` carries `data.database` and
`data.collection` ("" for absent, which is falsy); `malformed` stands for a
message on which `JSON.parse` threw; `other` is any other `type`. -/
inductive ClientMsg where
  | selectCollection : String → String → ClientMsg
  | malformed : ClientMsg
  | other : String → ClientMsg

/-- The WebSocket `message` handler (server.js lines 376-396).  When both
fixed-target environment variables are set, any `selectCollection` request is
answered with the lock error sent to the requesting socket only, with no
comparison against the requested target.  Otherwise `startWatching` runs;
an exception it throws is caught and only logged (line 394), so nothing is
sent in that case.  Malformed and unrecognized messages do nothing. -/
def handleMessage (cfg : Config) (clients : List Client) (st : SessionSt)
    (senderId : Nat) (msg : ClientMsg) : SessionSt × List (Nat × Msg) :=
  match msg with
  | .selectCollection database collection =>
    if cfg.mongodbDatabase ≠ "" ∧ cfg.mongodbCollection ≠ "" then
      (st, [(senderId, Msg.error "Collection is fixed by environment configuration")])
    else
      let r := startWatching clients st database collection
      (r.st, r.sends)
  | .malformed => (st, [])
  | .other _ => (st, [])

/-- Well-formedness of the session state: the open-stream bookkeeping
matches `currentChangeStream` (the active stream, if any, is the only open
one), and every open id is below the fresh-id counter. -/
def SessionInv (st : SessionSt) : Prop :=
  (match st.current with
   | some i => st.openIds = [i]
   | none => st.openIds = []) ∧
  ∀ i ∈ st.openIds, i < st.nextId

/-- The state at process start: connected, no stream open yet. -/
def initialState : SessionSt :=
  { mongoConnected := true, current := none, openIds := [], nextId := 0, watchDesc := "" }


/-- One externally visible event at the hub: a viewer connects (lines
364-365: the socket is added to `clients`, then sent `welcome` and, when a
watch description exists, `status` directly), a viewer leaves (lines 367-374:
removed from `clients`), or the change stream publishes an event that is
broadcast to the registry. -/
inductive HubEvent where
  | join : Nat → HubEvent
  | leave : Nat → HubEvent
  | publish : Msg → HubEvent

/-- Hub state: the registry (`clients`), deliveries of published events as
(client id, index of the publish in the trace), and the per-connection
welcome/status sends performed on join. -/
structure HubState where
  registered : List Client
  deliveries : List (Nat × Nat)
  directSends : List (Nat × Msg)

/-- One hub step.  `watching` is `currentWatchDescription` at join time;
`idx` is the position of the event in the trace. -/
def stepHub (watching : String) (idx : Nat) (st : HubState) : HubEvent → HubState
  | .join cid =>
    { st with
        registered := { id := cid, readyState := 1 } :: st.registered
        directSends := st.directSends ++ [(cid, Msg.welcome)] ++
          (if watching ≠ "" then [(cid, Msg.status watching)] else []) }
  | .leave cid =>
    { st with registered := st.registered.filter (fun c => c.id ≠ cid) }
  | .publish m =>
    { st with
        deliveries := st.deliveries ++
          (broadcast st.registered m).map (fun p => (p.1, idx)) }

/-- Run a trace of hub events from a state, numbering events from `idx`. -/
def runHubFrom (watching : String) : Nat → HubState → List HubEvent → HubState
  | _, st, [] => st
  | idx, st, e :: es => runHubFrom watching (idx + 1) (stepHub watching idx st e) es

/-- Run a trace of hub events from the empty registry. -/
def runHub (watching : String) (tr : List HubEvent) : HubState :=
  runHubFrom watching 0 { registered := [], deliveries := [], directSends := [] } tr

/-- Execution phase of one in-flight `startWatching` call.  The event loop
runs the call synchronously up to `await currentChangeStream.close()`
(line 248) and, once the close has completed, synchronously from line 249
(nulling the reference) through opening the new stream and broadcasting;
when no stream is active, no await is executed and the whole call runs in
one slice. -/
inductive RetargetPhase where
  | entry : RetargetPhase
  | awaitingClose : RetargetPhase
  | finished : RetargetPhase
deriving DecidableEq, Repr

/-- One in-flight `startWatching(database, collection)` call and how far it
has run. -/
structure RetargetTask where
  database : String
  collection : String
  phase : RetargetPhase
deriving DecidableEq, Repr

/-- Lines 252-277 of `startWatching`, run synchronously: select the watch
target (dereferencing a null `mongoClient` when `database` is truthy, which
throws before the description is set), set `currentWatchDescription`, open
the new stream (`watch()` throws on a null client).  Only the state effect
matters here: a thrown exception is swallowed by the message handler's
catch. -/
def openPhase (st : SessionSt) (database collection : String) : SessionSt :=
  if database ≠ "" ∧ st.mongoConnected = false then st
  else
    let st2 := { st with watchDesc := watchDescOf database collection }
    if st.mongoConnected = false then st2
    else
      { st2 with
          current := some st2.nextId
          openIds := st2.nextId :: st2.openIds
          nextId := st2.nextId + 1 }

/-- One event-loop slice of an in-flight `startWatching` call.  At `entry`
with an active stream, the handler calls `close()` on the stream captured
from `currentChangeStream` — the close completes while the handler is
suspended — and suspends at the await; `currentChangeStream` itself is
nulled only on resumption (line 249), so a task that resumes after another
task has already opened a fresh stream overwrites the reference to that
fresh stream without closing it. -/
def taskStep (st : SessionSt) (t : RetargetTask) : SessionSt × RetargetTask :=
  match t.phase with
  | .finished => (st, t)
  | .entry =>
    match st.current with
    | some i =>
      ({ st with openIds := st.openIds.erase i },
       { t with phase := .awaitingClose })
    | none =>
      (openPhase st t.database t.collection, { t with phase := .finished })
  | .awaitingClose =>
    (openPhase { st with current := none } t.database t.collection,
     { t with phase := .finished })

/-- Interleaved execution of several pending `selectCollection` handlers:
`sched` lists which in-flight call the event loop advances at each step
(indices into the task list; an out-of-range index is a no-op). -/
def runInterleaved : SessionSt → List RetargetTask → List Nat →
    SessionSt × List RetargetTask
  | st, tasks, [] => (st, tasks)
  | st, tasks, i :: rest =>
    match tasks.get? i with
    | none => runInterleaved st tasks rest
    | some t =>
      let r := taskStep st t
      runInterleaved r.1 (tasks.set i r.2) rest

/-! ## Helper lemmas -/

/-- `cleanForYaml` keeps the top-level field names of an object, in order:
the `for key in obj` copy loop preserves key order. -/
lemma fieldNames_cleanForYaml (v : JsValue) :
    fieldNames (cleanForYaml v) = fieldNames v := by
  cases v <;> simp [cleanForYaml, fieldNames]
  case obj fields =>
    exact List.attach_map_val fields (fun f => f.1)

/-- Every delivery `broadcast` performs goes to the id of a client in the
registry. -/
lemma broadcast_id_mem {clients : List Client} {m m' : Msg} {x : Nat}
    (h : (x, m') ∈ broadcast clients m) : x ∈ clients.map (fun c => c.id) := by
  rcases List.mem_filterMap.mp h with ⟨c, hc, heq⟩
  by_cases hrs : c.readyState = 1
  · simp [hrs] at heq
    exact List.mem_map.mpr ⟨c, hc, heq.1⟩
  · simp [hrs] at heq

/-- A `startWatching` call run to completion with no interleaving produces
exactly the state of the sequential embedding `startWatchingCore`: the
interleaved model is the same code, split at the await of line 248. -/
lemma runInterleaved_single_eq_core (st : SessionSt) (database collection : String) :
    (runInterleaved st
        [{ database := database, collection := collection, phase := .entry }]
        [0, 0]).1 =
      (startWatchingCore st database collection).st := by
  cases hcur : st.current with
  | none =>
    simp only [runInterleaved, taskStep, hcur, List.get?, List.set,
      startWatchingCore, closePhase, openPhase]
    split
    · simp_all
    · split <;> rfl
  | some i =>
    simp only [runInterleaved, taskStep, hcur, List.get?, List.set,
      startWatchingCore, closePhase, openPhase]
    split
    · simp_all
    · split <;> rfl

/-! ## Claim theorems -/

/-- C5: for every raw change notification exactly one payload drives the
rendered output, with precedence full document, then update delta, then the
key fields alone; and when a full document is present the payload driving
rendering is that document itself, with its field order preserved through
the display normalization (`sortKeys: false`, order-preserving
`cleanForYaml`). -/
theorem payload_precedence_and_order (now : String) (change : RawChange) :
    (∀ d, change.fullDocument = some d →
      choosePayload (formatChangeEvent now change) = d ∧
      fieldNames (cleanForYaml d) = fieldNames d) ∧
    (∀ u, change.fullDocument = none → change.updateDescription = some u →
      choosePayload (formatChangeEvent now change) = u) ∧
    (change.fullDocument = none → change.updateDescription = none →
      choosePayload (formatChangeEvent now change) =
        JsValue.obj [("documentKey", change.documentKey)]) := by
  refine ⟨?_, ?_, ?_⟩
  · intro d hd
    exact ⟨by simp [choosePayload, formatChangeEvent, hd], fieldNames_cleanForYaml d⟩
  · intro u hd hu
    simp [choosePayload, formatChangeEvent, hd, hu]
  · intro hd hu
    simp [choosePayload, formatChangeEvent, hd, hu]

/-- Witness for C5 at a concrete insert notification carrying the full
document `{b: 2, a: "x"}` (keys deliberately not in sorted order). -/
theorem payload_precedence_and_order_witness :
    choosePayload (formatChangeEvent "2024-01-01T00:00:00Z"
        { operationType := "insert"
          ns := some { db := some "shop", coll := some "orders" }
          documentKey := JsValue.obj [("_id", JsValue.num 1)]
          fullDocument := some (JsValue.obj [("b", JsValue.num 2), ("a", JsValue.str "x")])
          updateDescription := none }) =
      JsValue.obj [("b", JsValue.num 2), ("a", JsValue.str "x")] ∧
    fieldNames (cleanForYaml
        (JsValue.obj [("b", JsValue.num 2), ("a", JsValue.str "x")])) = ["b", "a"] := by
  have h := (payload_precedence_and_order "2024-01-01T00:00:00Z"
      { operationType := "insert"
        ns := some { db := some "shop", coll := some "orders" }
        documentKey := JsValue.obj [("_id", JsValue.num 1)]
        fullDocument := some (JsValue.obj [("b", JsValue.num 2), ("a", JsValue.str "x")])
        updateDescription := none }).1
    (JsValue.obj [("b", JsValue.num 2), ("a", JsValue.str "x")]) rfl
  exact ⟨h.1, by rw [h.2]; rfl⟩

/-- C6: known upstream operation tags map to the closed enum of display
operations, an unknown tag passes through uppercased, and the namespace is
`db.coll` with the literal placeholder "unknown" substituted for an absent
(or empty, hence falsy) component. -/
theorem operation_and_namespace_mapping (now : String) (change : RawChange) :
    ((change.operationType = "insert" →
        (formatChangeEvent now change).operation = "INSERT") ∧
     (change.operationType = "update" →
        (formatChangeEvent now change).operation = "UPDATE") ∧
     (change.operationType = "replace" →
        (formatChangeEvent now change).operation = "REPLACE") ∧
     (change.operationType = "delete" →
        (formatChangeEvent now change).operation = "DELETE") ∧
     (change.operationType = "drop" →
        (formatChangeEvent now change).operation = "DROP") ∧
     (change.operationType = "invalidate" →
        (formatChangeEvent now change).operation = "INVALIDATE") ∧
     (operationMap change.operationType = none →
        (formatChangeEvent now change).operation =
          jsToUpperCase change.operationType)) ∧
    ((change.ns = none →
        (formatChangeEvent now change).nspace = "unknown.unknown") ∧
     (∀ d c, change.ns = some { db := some d, coll := some c } → d ≠ "" → c ≠ "" →
        (formatChangeEvent now change).nspace = d ++ "." ++ c) ∧
     (∀ c, change.ns = some { db := none, coll := some c } → c ≠ "" →
        (formatChangeEvent now change).nspace = "unknown." ++ c) ∧
     (∀ d, change.ns = some { db := some d, coll := none } → d ≠ "" →
        (formatChangeEvent now change).nspace = d ++ "." ++ "unknown") ∧
     (∀ c, change.ns = some { db := some "", coll := some c } → c ≠ "" →
        (formatChangeEvent now change).nspace = "unknown." ++ c)) := by
  refine ⟨⟨?_, ?_, ?_, ?_, ?_, ?_, ?_⟩, ⟨?_, ?_, ?_, ?_, ?_⟩⟩ <;>
    intros <;> simp_all [formatChangeEvent, operationMap, orUnknown]

/-- Witness for C6: a known tag with a full namespace, and an unknown tag
("rename") with no namespace. -/
theorem operation_and_namespace_mapping_witness :
    (formatChangeEvent "t"
        { operationType := "insert"
          ns := some { db := some "shop", coll := some "orders" }
          documentKey := JsValue.null, fullDocument := none
          updateDescription := none }).operation = "INSERT" ∧
    (formatChangeEvent "t"
        { operationType := "insert"
          ns := some { db := some "shop", coll := some "orders" }
          documentKey := JsValue.null, fullDocument := none
          updateDescription := none }).nspace = "shop.orders" ∧
    (formatChangeEvent "t"
        { operationType := "rename", ns := none
          documentKey := JsValue.null, fullDocument := none
          updateDescription := none }).operation = "RENAME" ∧
    (formatChangeEvent "t"
        { operationType := "rename", ns := none
          documentKey := JsValue.null, fullDocument := none
          updateDescription := none }).nspace = "unknown.unknown" := by
  refine ⟨?_, ?_, ?_, ?_⟩
  · exact (operation_and_namespace_mapping "t" _).1.1 rfl
  · exact (operation_and_namespace_mapping "t" _).2.2.1 "shop" "orders" rfl
      (by decide) (by decide)
  · have h := (operation_and_namespace_mapping "t"
        { operationType := "rename", ns := none
          documentKey := JsValue.null, fullDocument := none
          updateDescription := none }).1.2.2.2.2.2.2 rfl
    rw [h]; decide
  · exact (operation_and_namespace_mapping "t" _).2.1 rfl

/-- C8: every registered client in the OPEN state receives each broadcast
message, and a failed (non-OPEN) connection anywhere in the registry neither
blocks nor changes delivery to the others. -/
theorem broadcast_delivers_to_open_clients (clients : List Client) (m : Msg) :
    (∀ c ∈ clients, c.readyState = 1 → (c.id, m) ∈ broadcast clients m) ∧
    (∀ (l1 l2 : List Client) (d : Client), d.readyState ≠ 1 →
      broadcast (l1 ++ d :: l2) m = broadcast (l1 ++ l2) m) := by
  constructor
  · intro c hc hrs
    exact List.mem_filterMap.mpr ⟨c, hc, by simp [hrs]⟩
  · intro l1 l2 d hd
    simp [broadcast, List.filterMap_append, List.filterMap_cons, hd]

/-- Witness for C8: with one OPEN client (id 7) and one CLOSED client
(id 8), client 7 is delivered to, and removing the closed client changes
nothing. -/
theorem broadcast_delivers_to_open_clients_witness :
    (7, Msg.welcome) ∈
      broadcast [{ id := 7, readyState := 1 }, { id := 8, readyState := 3 }]
        Msg.welcome ∧
    broadcast [{ id := 7, readyState := 1 }, { id := 8, readyState := 3 }]
        Msg.welcome =
      broadcast [{ id := 7, readyState := 1 }] Msg.welcome := by
  constructor
  · exact (broadcast_delivers_to_open_clients
      [{ id := 7, readyState := 1 }, { id := 8, readyState := 3 }] Msg.welcome).1
      { id := 7, readyState := 1 } (by simp) rfl
  · exact (broadcast_delivers_to_open_clients
      [{ id := 7, readyState := 1 }] Msg.welcome).2
      [{ id := 7, readyState := 1 }] [] { id := 8, readyState := 3 } (by decide)

/-- C3: with a fixed target configured (both environment variables
non-empty), a `selectCollection` request for a different target is answered
with the lock error sent to the requesting connection only, and the session
state — in particular the current watch target — is unchanged. -/
theorem locked_retarget_different_target_rejected
    (cfg : Config) (clients : List Client) (st : SessionSt) (senderId : Nat)
    (database collection : String)
    (hdb : cfg.mongodbDatabase ≠ "") (hcoll : cfg.mongodbCollection ≠ "")
    (hdiff : database ≠ cfg.mongodbDatabase ∨ collection ≠ cfg.mongodbCollection) :
    handleMessage cfg clients st senderId (.selectCollection database collection) =
      (st, [(senderId, Msg.error "Collection is fixed by environment configuration")]) := by
  simp [handleMessage, hdb, hcoll]

/-- Witness for C3: locked on `shop.orders`, a request for `other.stuff` by
connection 4 is rejected with the lock error to connection 4 only. -/
theorem locked_retarget_different_target_rejected_witness :
    handleMessage { mongodbDatabase := "shop", mongodbCollection := "orders" }
        [{ id := 4, readyState := 1 }, { id := 5, readyState := 1 }]
        initialState 4 (.selectCollection "other" "stuff") =
      (initialState,
       [(4, Msg.error "Collection is fixed by environment configuration")]) :=
  locked_retarget_different_target_rejected
    { mongodbDatabase := "shop", mongodbCollection := "orders" }
    [{ id := 4, readyState := 1 }, { id := 5, readyState := 1 }]
    initialState 4 "other" "stuff" (by decide) (by decide) (Or.inl (by decide))

/-- C10: with a fixed target configured, even a `selectCollection` request
naming exactly the fixed database and collection is rejected with the lock
error and no retarget happens — the handler never compares the requested
target with the fixed one. -/
theorem locked_rejects_even_fixed_target
    (cfg : Config) (clients : List Client) (st : SessionSt) (senderId : Nat)
    (hdb : cfg.mongodbDatabase ≠ "") (hcoll : cfg.mongodbCollection ≠ "") :
    handleMessage cfg clients st senderId
        (.selectCollection cfg.mongodbDatabase cfg.mongodbCollection) =
      (st, [(senderId, Msg.error "Collection is fixed by environment configuration")]) := by
  simp [handleMessage, hdb, hcoll]

/-- Witness for C10: locked on `shop.orders`, a request for exactly
`shop.orders` is still rejected and the state is unchanged. -/
theorem locked_rejects_even_fixed_target_witness :
    handleMessage { mongodbDatabase := "shop", mongodbCollection := "orders" }
        [{ id := 4, readyState := 1 }] initialState 4
        (.selectCollection "shop" "orders") =
      (initialState,
       [(4, Msg.error "Collection is fixed by environment configuration")]) :=
  locked_rejects_even_fixed_target
    { mongodbDatabase := "shop", mongodbCollection := "orders" }
    [{ id := 4, readyState := 1 }] initialState 4 (by decide) (by decide)

/-- Counterexample to C1: with client 7 connected and stream 0 active, a
`StreamInterrupted` stream error broadcasts the error event but leaves the
state untouched — stream 0 is still open and still current, and no
reconnection is scheduled (the handler on lines 313-319 only logs and
broadcasts; the retry path in `connectMongoDB` is reachable only from an
initial connection failure).  This refutes the claim that the system
"closes the active Subscription and invokes the reconnect policy". -/
theorem stream_error_leaves_subscription_open_cex :
    onStreamError [{ id := 7, readyState := 1 }]
        { mongoConnected := true, current := some 0, openIds := [0], nextId := 1,
          watchDesc := "shop.orders" } "StreamInterrupted" =
      ({ mongoConnected := true, current := some 0, openIds := [0], nextId := 1,
         watchDesc := "shop.orders" },
       [(7, Msg.error "StreamInterrupted")]) ∧
    0 ∈ (onStreamError [{ id := 7, readyState := 1 }]
        { mongoConnected := true, current := some 0, openIds := [0], nextId := 1,
          watchDesc := "shop.orders" } "StreamInterrupted").1.openIds ∧
    (onStreamError [{ id := 7, readyState := 1 }]
        { mongoConnected := true, current := some 0, openIds := [0], nextId := 1,
          watchDesc := "shop.orders" } "StreamInterrupted").1.current = some 0 :=
  ⟨rfl, by decide, rfl⟩

/-- C1 as amended: each stream error broadcasts one error event to the
connected clients and changes nothing else; after `n` consecutive stream
errors (in particular three), the system has broadcast `n` error events,
the Subscription has not been closed and is still the active one, and no
reconnection has been attempted (no new stream was ever opened — the state,
including the fresh-id counter, is exactly the original one). -/
theorem stream_errors_broadcast_without_close_or_reconnect
    (n : Nat) (clients : List Client) (st : SessionSt) (e : String) :
    streamErrors n clients st e =
      (st, (List.replicate n (broadcast clients (Msg.error e))).flatten) := by
  induction n with
  | zero => rfl
  | succ k ih => simp [streamErrors, onStreamError, ih, List.replicate_succ]

/-- Counterexample to C4: with stream 0 active on `mydb.mycoll`, a retarget
request for the very same target `mydb.mycoll` is not a no-op: stream 0 is
closed and a fresh stream 1 is opened.  The code never compares the
requested target with the current one. -/
theorem retarget_same_target_not_noop_cex :
    watchDescOf "mydb" "mycoll" =
      (SessionSt.mk true (some 0) [0] 1 "mydb.mycoll").watchDesc ∧
    (startWatching [] (SessionSt.mk true (some 0) [0] 1 "mydb.mycoll")
        "mydb" "mycoll").st ≠ SessionSt.mk true (some 0) [0] 1 "mydb.mycoll" ∧
    0 ∉ (startWatching [] (SessionSt.mk true (some 0) [0] 1 "mydb.mycoll")
        "mydb" "mycoll").st.openIds ∧
    (startWatching [] (SessionSt.mk true (some 0) [0] 1 "mydb.mycoll")
        "mydb" "mycoll").st.current = some 1 := by
  refine ⟨by decide, by decide, by decide, by decide⟩

/-- C4 as amended: every retarget executed while connected — including one
whose requested target equals the currently active one — closes the active
Subscription and opens a fresh one; there is no by-value comparison and no
no-op path. -/
theorem retarget_same_target_closes_and_reopens
    (clients : List Client) (st : SessionSt) (i : Nat) (database collection : String)
    (hinv : SessionInv st) (hconn : st.mongoConnected = true)
    (hcur : st.current = some i)
    (hsame : watchDescOf database collection = st.watchDesc) :
    (startWatching clients st database collection).thrown = none ∧
    i ∉ (startWatching clients st database collection).st.openIds ∧
    (startWatching clients st database collection).st.current = some st.nextId ∧
    (startWatching clients st database collection).st.current ≠ st.current := by
  obtain ⟨hids, hfresh⟩ := hinv
  rw [hcur] at hids
  have hlt : i < st.nextId := hfresh i (by rw [hids]; exact List.mem_singleton_self i)
  have hclose : (closePhase st).openIds = [] := by
    simp [closePhase, hcur, hids, List.erase_cons_head]
  have hclose2 : (closePhase st).nextId = st.nextId := by
    simp [closePhase, hcur]
  refine ⟨?_, ?_, ?_, ?_⟩ <;>
    simp_all [startWatching, startWatchingCore, hconn, hclose, hclose2, closePhase] <;>
    omega

/-- Witness for the amended C4 at a concrete state and target. -/
theorem retarget_same_target_closes_and_reopens_witness :
    (startWatching [] (SessionSt.mk true (some 0) [0] 1 "mydb.mycoll")
        "mydb" "mycoll").thrown = none ∧
    0 ∉ (startWatching [] (SessionSt.mk true (some 0) [0] 1 "mydb.mycoll")
        "mydb" "mycoll").st.openIds ∧
    (startWatching [] (SessionSt.mk true (some 0) [0] 1 "mydb.mycoll")
        "mydb" "mycoll").st.current = some 1 ∧
    (startWatching [] (SessionSt.mk true (some 0) [0] 1 "mydb.mycoll")
        "mydb" "mycoll").st.current ≠ (SessionSt.mk true (some 0) [0] 1 "mydb.mycoll").current :=
  retarget_same_target_closes_and_reopens []
    (SessionSt.mk true (some 0) [0] 1 "mydb.mycoll") 0 "mydb" "mycoll"
    ⟨by decide, by decide⟩ rfl rfl (by decide)

/-- Counterexample to C7: unlocked, with two OPEN connections and MongoDB
not yet connected, connection 1 requests `shop.orders`.  The retarget fails
(`startWatching` throws dereferencing the null `mongoClient`), but nothing
is sent to anyone: the message handler's `catch` only logs (line 394), so
the resulting error is not broadcast to all connections as the claim
states. -/
theorem retarget_failure_not_broadcast_cex :
    (startWatching [{ id := 1, readyState := 1 }, { id := 2, readyState := 1 }]
        (SessionSt.mk false none [] 0 "") "shop" "orders").thrown ≠ none ∧
    handleMessage { mongodbDatabase := "", mongodbCollection := "" }
        [{ id := 1, readyState := 1 }, { id := 2, readyState := 1 }]
        (SessionSt.mk false none [] 0 "") 1 (.selectCollection "shop" "orders") =
      ((startWatching [{ id := 1, readyState := 1 }, { id := 2, readyState := 1 }]
          (SessionSt.mk false none [] 0 "") "shop" "orders").st, []) :=
  ⟨by decide, rfl⟩

/-- C7 as amended: while the target is not locked, a `selectCollection`
request is handled identically for any requester (no special acknowledgment
to the requesting connection); on success the status event is broadcast to
all connections; on failure the exception is caught and only logged —
nothing at all is sent, to the requester or to anyone else. -/
theorem unlocked_retarget_outcome
    (cfg : Config) (clients : List Client) (st : SessionSt)
    (s1 s2 : Nat) (database collection : String)
    (hunlocked : ¬(cfg.mongodbDatabase ≠ "" ∧ cfg.mongodbCollection ≠ "")) :
    handleMessage cfg clients st s1 (.selectCollection database collection) =
      handleMessage cfg clients st s2 (.selectCollection database collection) ∧
    (st.mongoConnected = true →
      (handleMessage cfg clients st s1 (.selectCollection database collection)).2 =
        broadcast clients (Msg.status (watchDescOf database collection))) ∧
    (st.mongoConnected = false →
      (handleMessage cfg clients st s1 (.selectCollection database collection)).2 = []) := by
  refine ⟨by simp [handleMessage, hunlocked], ?_, ?_⟩
  · intro hconn
    simp [handleMessage, hunlocked, startWatching, startWatchingCore, hconn, closePhase]
  · intro hconn
    by_cases hdb : database = "" <;>
      simp [handleMessage, hunlocked, startWatching, startWatchingCore, hconn, hdb]

/-- Witness for the amended C7: unlocked and connected, requests from
connections 1 and 2 produce identical results, and the status broadcast
reaches both open connections. -/
theorem unlocked_retarget_outcome_witness :
    handleMessage { mongodbDatabase := "", mongodbCollection := "" }
        [{ id := 1, readyState := 1 }, { id := 2, readyState := 1 }]
        initialState 1 (.selectCollection "shop" "orders") =
      handleMessage { mongodbDatabase := "", mongodbCollection := "" }
        [{ id := 1, readyState := 1 }, { id := 2, readyState := 1 }]
        initialState 2 (.selectCollection "shop" "orders") ∧
    (handleMessage { mongodbDatabase := "", mongodbCollection := "" }
        [{ id := 1, readyState := 1 }, { id := 2, readyState := 1 }]
        initialState 1 (.selectCollection "shop" "orders")).2 =
      broadcast [{ id := 1, readyState := 1 }, { id := 2, readyState := 1 }]
        (Msg.status (watchDescOf "shop" "orders")) :=
  ⟨(unlocked_retarget_outcome { mongodbDatabase := "", mongodbCollection := "" }
      [{ id := 1, readyState := 1 }, { id := 2, readyState := 1 }]
      initialState 1 2 "shop" "orders" (by decide)).1,
   (unlocked_retarget_outcome { mongodbDatabase := "", mongodbCollection := "" }
      [{ id := 1, readyState := 1 }, { id := 2, readyState := 1 }]
      initialState 1 2 "shop" "orders" (by decide)).2.1 rfl⟩


/-- Deliveries of the published event numbered `k` can only be produced at
step `k`, and only to clients registered at that moment: running a trace
from position `idx` never adds a `(c, k)` delivery when `c` is not in the
registry (unless `k` lies before `idx`), provided every `join c` in the
remaining trace comes after position `k`. -/
lemma runHubFrom_no_delivery (w : String) (c k : Nat) :
    ∀ (es : List HubEvent) (idx : Nat) (st : HubState),
      (c, k) ∉ st.deliveries →
      (c ∉ st.registered.map (fun cl => cl.id) ∨ k < idx) →
      (∀ j, es.get? j = some (.join c) → k < idx + j) →
      (c, k) ∉ (runHubFrom w idx st es).deliveries := by
  intro es
  induction es with
  | nil => intro idx st h1 _ _; exact h1
  | cons e rest ih =>
    intro idx st h1 h2 h3
    have h3rest : ∀ j, rest.get? j = some (.join c) → k < (idx + 1) + j := by
      intro j hj
      have := h3 (j + 1) (by simpa using hj)
      omega
    show (c, k) ∉ (runHubFrom w (idx + 1) (stepHub w idx st e) rest).deliveries
    cases e with
    | join cid =>
      refine ih (idx + 1) _ h1 ?_ h3rest
      by_cases hk : k < idx + 1
      · exact Or.inr hk
      rcases h2 with h2 | h2
      · have hcid : cid ≠ c := by
          intro heq
          have := h3 0 (by simp [heq])
          omega
        refine Or.inl ?_
        simp only [stepHub, List.map_cons, List.mem_cons]
        rintro (h | h)
        · exact hcid h.symm
        · exact h2 h
      · omega
    | leave cid =>
      refine ih (idx + 1) _ h1 ?_ h3rest
      rcases h2 with h2 | h2
      · refine Or.inl ?_
        intro hmem
        rcases List.mem_map.mp hmem with ⟨cl, hcl, hid⟩
        exact h2 (List.mem_map.mpr ⟨cl, List.mem_of_mem_filter hcl, hid⟩)
      · exact Or.inr (by omega)
    | publish m =>
      refine ih (idx + 1) _ ?_ ?_ h3rest
      · simp only [stepHub, List.mem_append]
        rintro (hold | hnew)
        · exact h1 hold
        · rcases List.mem_map.mp hnew with ⟨p, hp, heq⟩
          have hc : p.1 = c := congrArg Prod.fst heq
          have hk : idx = k := congrArg Prod.snd heq
          rcases h2 with h2 | h2
          · exact h2 (hc ▸ broadcast_id_mem hp)
          · omega
      · rcases h2 with h2 | h2
        · exact Or.inl h2
        · exact Or.inr (by omega)

/-- C9: a connection whose every `join` occurs after the publish of event
number `k` is never sent that event: published events are delivered only to
the registry as it stands at publish time, never retroactively. -/
theorem late_joiner_never_receives_past_event
    (w : String) (tr : List HubEvent) (c k : Nat)
    (hjoin : ∀ j, tr.get? j = some (.join c) → k < j) :
    (c, k) ∉ (runHub w tr).deliveries :=
  runHubFrom_no_delivery w c k tr 0
    { registered := [], deliveries := [], directSends := [] }
    (by simp) (Or.inl (by simp)) (by simpa using hjoin)

/-- Witness for C9: in the trace "publish event 0, then connection 5
joins", connection 5 never receives event 0. -/
theorem late_joiner_never_receives_past_event_witness :
    (5, 0) ∉ (runHub "" [HubEvent.publish Msg.welcome, HubEvent.join 5]).deliveries :=
  late_joiner_never_receives_past_event ""
    [HubEvent.publish Msg.welcome, HubEvent.join 5] 5 0
    (by
      intro j hj
      match j with
      | 0 => simp [List.get?] at hj
      | 1 => exact Nat.zero_lt_one
      | (n + 2) => simp [List.get?] at hj)

/-- C2: the claimed invariant — at most one Subscription open at any
instant, a new one never opened until the previous is fully closed — is
violated by the code when two `selectCollection` handlers interleave at
`await currentChangeStream.close()` (line 248).  With stream 0 active and
two retarget requests in flight, both handlers pass the line-247 check and
suspend at the await; the first resumes, nulls the reference (line 249)
and opens stream 1; the second then resumes, sets
`currentChangeStream = null` — discarding the reference to stream 1, which
is still open with its change handler attached — and opens stream 2.  At
that instant two change streams are open (`openIds = [2, 1]`), and stream 1
is orphaned: open but no longer current, so no later retarget can ever
close it.  This contradicts the spec's stated invariant and
`startWatching`'s own doc comment ("Closes the existing stream if one
exists"): the code is missing any serialization of retargets, so the claim
is correct intent and the code has a race. -/
theorem interleaved_retargets_leave_two_streams_open :
    (runInterleaved
        { mongoConnected := true, current := some 0, openIds := [0], nextId := 1,
          watchDesc := "a.b" }
        [{ database := "db1", collection := "c1", phase := .entry },
         { database := "db2", collection := "c2", phase := .entry }]
        [0, 1, 0, 1]).1.openIds = [2, 1] ∧
    (runInterleaved
        { mongoConnected := true, current := some 0, openIds := [0], nextId := 1,
          watchDesc := "a.b" }
        [{ database := "db1", collection := "c1", phase := .entry },
         { database := "db2", collection := "c2", phase := .entry }]
        [0, 1, 0, 1]).1.openIds.length = 2 ∧
    1 ∈ (runInterleaved
        { mongoConnected := true, current := some 0, openIds := [0], nextId := 1,
          watchDesc := "a.b" }
        [{ database := "db1", collection := "c1", phase := .entry },
         { database := "db2", collection := "c2", phase := .entry }]
        [0, 1, 0, 1]).1.openIds ∧
    (runInterleaved
        { mongoConnected := true, current := some 0, openIds := [0], nextId := 1,
          watchDesc := "a.b" }
        [{ database := "db1", collection := "c1", phase := .entry },
         { database := "db2", collection := "c2", phase := .entry }]
        [0, 1, 0, 1]).1.current = some 2 := by
  decide
